import Mathlib

/-!
Shallow embedding of `src/log.py` of RSS-to-Telegram-Bot: the watchdog timer
(`_Watchdog`), the APScheduler log filter (`_APSCFilter.filter`), the aiohttp
access-log filter (`AiohttpAccessFilter.filter`), and the shutdown machinery
(`exit_handler`, `shutdown`).  Log records arrive already formatted
(`record.msg % record.args` is taken as the input string); machine integers of
Python are unbounded so counters are plain `Int`/`Nat`.
-/

/-- Python's substring test `sub in s`, on lists of characters: `sub` occurs as a
contiguous run somewhere in the list. -/
def containsList (sub : List Char) : List Char → Bool
  | [] => sub.isEmpty
  | c :: rest => sub.isPrefixOf (c :: rest) || containsList sub rest

/-- Python's `sub in s` on strings. -/
def strContains (s sub : String) : Bool := containsList sub.toList s.toList

/-- `'skipped: maximum number of running instances reached'` (src/log.py line 86). -/
def failureSub : String := "skipped: maximum number of running instances reached"

/-- `' executed successfully'` (src/log.py line 104) — note the leading space. -/
def successSub : String := " executed successfully"

/-- `'Running job \"run_monitor_task'` (src/log.py line 108). -/
def runningJobSub : String := "Running job \"run_monitor_task"

/-- `'Mozilla'` (src/log.py line 123). -/
def mozillaMarker : String := "Mozilla"

/-- `logging.INFO`. -/
def INFO : Int := 20

/-- A message composed for `env.bot.send_message(env.MANAGER, text)`: the
"coro" objects built by the filter and the watchdog.  Only the text matters for
the model; the destination is always `env.MANAGER`. -/
structure Notification where
  text : String
deriving DecidableEq, Repr

/-- The observable side effects of the filter and the watchdog. -/
inductive FEvent where
  /-- `env.loop.create_task(coro)`: fire-and-forget notification dispatch. -/
  | createTask (n : Notification)
  /-- `_logger.critical(text)`. -/
  | criticalLog (text : String)
  /-- `shutdown(prerequisite=coro)`: a ShutdownRequest with optional prerequisite. -/
  | shutdownReq (prereq : Option Notification)
deriving DecidableEq, Repr

/-- A Python exception raised out of the modelled code. -/
inductive PyErr where
  /-- `AttributeError` from dereferencing `None` (e.g. `env.bot.send_message`
  when `env.bot is None`). -/
  | attributeError
deriving DecidableEq, Repr

/-! ## `_Watchdog`

`env.loop.call_later(delay, self._exit_bot, delay)` returns a `TimerHandle`;
`handle.cancel()` marks it cancelled, and the event loop runs the callback of a
handle at most once and never if it was cancelled first.  A timer is modelled
by its delay plus the `cancelled`/`fired` flags of its handle; the watchdog
state keeps every handle ever created (so that a stale handle can still be
poked by the event-loop model) together with the index of the handle currently
stored in `self._watchdog`. -/

/-- One `TimerHandle` created by `call_later(delay, _exit_bot, delay)`. -/
structure Timer where
  delay : Int
  cancelled : Bool
  fired : Bool
deriving DecidableEq, Repr

/-- State of the `_Watchdog` instance plus all timer handles it ever created. -/
structure WatchdogState where
  timers : List Timer
  /-- Index into `timers` of the handle held in `self._watchdog`. -/
  current : Nat
deriving DecidableEq, Repr

/-- `_Watchdog.__init__` default delay: `5 * 60`. -/
def watchdogInitialDelay : Int := 5 * 60

/-- `_Watchdog.fine` default delay: `15 * 60` (the "all clear" re-arm delay). -/
def watchdogFineDelay : Int := 15 * 60

/-- `_Watchdog()`: arm a fresh timer with the initial delay. -/
def Watchdog.init : WatchdogState :=
  ⟨[⟨watchdogInitialDelay, false, false⟩], 0⟩

/-- `handle.cancel()` on the `i`-th handle. -/
def cancelAt (ts : List Timer) (i : Nat) : List Timer :=
  match ts[i]? with
  | some t => ts.set i { t with cancelled := true }
  | none => ts

/-- `_Watchdog.fine(delay)`: `self._watchdog.cancel()` then
`self._watchdog = env.loop.call_later(delay, self._exit_bot, delay)`. -/
def Watchdog.fine (s : WatchdogState) (delay : Int) : WatchdogState :=
  ⟨cancelAt s.timers s.current ++ [⟨delay, false, false⟩], s.timers.length⟩

/-- The message of `_exit_bot`:
`f'Never heard from the bot for {delay} seconds. Exiting...'`. -/
def watchdogMsg (delay : Int) : String :=
  "Never heard from the bot for " ++ toString delay ++ " seconds. Exiting..."

/-- Body of `_Watchdog._exit_bot(delay)`: log critical, compose the operator
notification when `env.bot is not None`, and call `shutdown(prerequisite=coro)`.
`bot` is `some ()` when `env.bot is not None`. -/
def exitBot (bot : Option Unit) (delay : Int) : List FEvent :=
  let msg := watchdogMsg delay
  let coro : Option Notification :=
    match bot with
    | some _ => some ⟨"WATCHDOG: " ++ msg⟩
    | none => none
  [FEvent.criticalLog msg, FEvent.shutdownReq coro]

/-- The event loop reaching the deadline of handle `i`: the callback runs only
if the handle is neither cancelled nor already fired, and the handle is marked
fired. -/
def Watchdog.tryFire (s : WatchdogState) (i : Nat) (bot : Option Unit) :
    WatchdogState × List FEvent :=
  match s.timers[i]? with
  | some t =>
      if t.cancelled || t.fired then (s, [])
      else ({ s with timers := s.timers.set i { t with fired := true } }, exitBot bot t.delay)
  | none => (s, [])

/-- An event-loop step touching the watchdog: either the bot calls `fine` or
the loop reaches the deadline of handle `i`. -/
inductive WOp where
  | fine (delay : Int)
  | tryFire (i : Nat) (bot : Option Unit)

/-- Run a sequence of watchdog operations from a state, collecting events. -/
def Watchdog.run : WatchdogState → List WOp → WatchdogState × List FEvent
  | s, [] => (s, [])
  | s, WOp.fine d :: ops => Watchdog.run (Watchdog.fine s d) ops
  | s, WOp.tryFire i b :: ops =>
      let p := Watchdog.tryFire s i b
      let q := Watchdog.run p.1 ops
      (q.1, p.2 ++ q.2)

/-! ## `_APSCFilter` -/

/-- State of the `_APSCFilter` instance: `self.count` and `self.watchdog`. -/
structure APSCState where
  count : Int
  watchdog : WatchdogState
deriving DecidableEq, Repr

/-- `_APSCFilter.__init__`: `self.count = 0; self.watchdog = _Watchdog()`. -/
def APSCState.init : APSCState := ⟨0, Watchdog.init⟩

/-- The notification text composed in the failure branch of the filter. -/
def notificationText (c : Int) (msg : String) : String :=
  "RSS monitor tasks have conflicted too many times (" ++ toString c ++ ")!\n"
    ++ (if c < 15 then
          "Please store the log and restart.\n(sometimes it may be caused by too many subscriptions)"
        else
          "Now the bot will restart.")
    ++ "\n\n" ++ msg

/-- `f'RSS monitor tasks have conflicted too many times ({count})! Exiting...'`. -/
def escalationCriticalMsg (c : Int) : String :=
  "RSS monitor tasks have conflicted too many times (" ++ toString c ++ ")! Exiting..."

deriving instance DecidableEq for Except

/-- Outcome of one `filter` call: the returned bool (or a raised exception),
the mutated filter state, and the side effects in order.  On an exception the
state still carries mutations made before the raise (`self.count += 1` runs
before `env.bot.send_message` is attempted). -/
structure FilterOut where
  result : Except PyErr Bool
  state : APSCState
  events : List FEvent
deriving DecidableEq, Repr

/-- `_APSCFilter.filter(record)` on the formatted message `msg`, with
`bot = some ()` iff `env.bot is not None`. -/
def APSCFilter.filter (bot : Option Unit) (s : APSCState) (msg : String) : FilterOut :=
  if strContains msg failureSub then
    let c := s.count + 1
    let s' : APSCState := { s with count := c }
    if c ≠ 0 ∧ c % 5 = 0 then
      match bot with
      | none => ⟨Except.error PyErr.attributeError, s', []⟩
      | some _ =>
          let coro : Notification := ⟨notificationText c msg⟩
          if 15 ≤ c then
            ⟨Except.ok true, s',
              [FEvent.criticalLog (escalationCriticalMsg c), FEvent.shutdownReq (some coro)]⟩
          else
            ⟨Except.ok true, s', [FEvent.createTask coro]⟩
    else ⟨Except.ok true, s', []⟩
  else if strContains msg successSub then
    ⟨Except.ok false, ⟨0, Watchdog.fine s.watchdog watchdogFineDelay⟩, []⟩
  else if strContains msg runningJobSub then
    ⟨Except.ok false, s, []⟩
  else ⟨Except.ok true, s, []⟩

/-- Iterate the filter on the same failure message `n` times from the initial
state with the bot present, collecting the per-step event lists. -/
def iterFailures (msg : String) : Nat → APSCState × List (List FEvent)
  | 0 => (APSCState.init, [])
  | n + 1 =>
      let p := iterFailures msg n
      let out := APSCFilter.filter (some ()) p.1 msg
      (out.state, p.2 ++ [out.events])

/-- Whether an event dispatches an operator notification (either fire-and-forget
via `create_task` or as the prerequisite of a ShutdownRequest). -/
def isNotify : FEvent → Bool
  | FEvent.createTask _ => true
  | FEvent.shutdownReq (some _) => true
  | _ => false

/-- Whether an event submits a ShutdownRequest. -/
def isShutdownReq : FEvent → Bool
  | FEvent.shutdownReq _ => true
  | _ => false

/-! ## `AiohttpAccessFilter` -/

/-- `AiohttpAccessFilter.filter(record)`: suppress records at level ≤ INFO whose
formatted message lacks the `'Mozilla'` marker; a pure function of
`(levelno, formatted message)`. -/
def AiohttpAccessFilter.filter (levelno : Int) (msg : String) : Bool :=
  if levelno ≤ INFO ∧ strContains msg mozillaMarker = false then false else true

/-! ## `exit_handler` and `shutdown`

`exit_handler` is embedded as a trace function over an environment describing
the behaviour of the external collaborators: whether a prerequisite awaitable
was supplied (and how long it takes), whether `env.bot` exists and reports
itself connected, and whether `disconnect()` / `Tortoise.close_connections()`
raise.  The control flow of the trace mirrors the source: the prerequisite wait
with its `asyncio.TimeoutError` handler, the inner `try`/`finally` around the
disconnect with the unconditional storage close, the outer `except Exception`
with the critical log and `os.kill(os.getpid(), signal.SIGTERM)`, and the
final `exit(1)`. -/

/-- `timeout=10` in `asyncio.wait_for(prerequisite, timeout=10)`. -/
def exitHandlerTimeout : Nat := 10

/-- Behaviour of the collaborators during one `exit_handler` run. -/
structure ExitEnv where
  /-- `some d` iff a prerequisite awaitable was supplied, needing `d` time
  units to complete. -/
  prereq : Option Nat
  /-- `env.bot` is not `None`. -/
  botPresent : Bool
  /-- `env.bot.is_connected()`. -/
  botConnected : Bool
  /-- `env.bot.disconnect()` raises. -/
  disconnectRaises : Bool
  /-- `Tortoise.close_connections()` raises. -/
  closeRaises : Bool
deriving DecidableEq, Repr

/-- Observable steps of the teardown sequence, in execution order. -/
inductive ExitEvent where
  /-- `await asyncio.wait_for(prerequisite, timeout=10)` was entered. -/
  | awaitPrereq
  /-- `_logger.critical('Failed to gracefully exit: prerequisite timed out')`. -/
  | criticalTimeout
  /-- `await env.bot.disconnect()` was attempted. -/
  | disconnect
  /-- `await Tortoise.close_connections()` was attempted. -/
  | closeConnections
  /-- `_logger.critical('Failed to gracefully exit:', exc_info=e)`. -/
  | criticalError
  /-- `os.kill(os.getpid(), signal.SIGTERM)`. -/
  | sigterm
  /-- `exit(code)`. -/
  | exitCode (code : Nat)
deriving DecidableEq, Repr

/-- The trace of `exit_handler(prerequisite)` under environment `e`. -/
def exit_handler (e : ExitEnv) : List ExitEvent :=
  let prereqEvents : List ExitEvent :=
    match e.prereq with
    | none => []
    | some d =>
        if exitHandlerTimeout < d then [ExitEvent.awaitPrereq, ExitEvent.criticalTimeout]
        else [ExitEvent.awaitPrereq]
  let doDisconnect := e.botPresent && e.botConnected
  let discEvents : List ExitEvent := if doDisconnect then [ExitEvent.disconnect] else []
  let raised := (doDisconnect && e.disconnectRaises) || e.closeRaises
  prereqEvents ++ discEvents ++ [ExitEvent.closeConnections]
    ++ (if raised then [ExitEvent.criticalError, ExitEvent.sigterm] else [])
    ++ [ExitEvent.exitCode 1]

/-- Result of `shutdown(prerequisite)`. -/
inductive ShutdownResult where
  /-- The event loop was not running: immediate `exit(1)`, no async path. -/
  | exited (code : Nat)
  /-- The event loop was running: `exit_handler` was scheduled fire-and-forget
  (via `asyncio.gather(env.loop.create_task(...))`) and `shutdown` returned;
  the field is the trace the scheduled teardown produces. -/
  | scheduled (trace : List ExitEvent)
deriving DecidableEq, Repr

/-- `shutdown(prerequisite)`: `exit(1)` if `env.loop` is not running, else
schedule `exit_handler` and return immediately. -/
def shutdown (loopRunning : Bool) (e : ExitEnv) : ShutdownResult :=
  if loopRunning then ShutdownResult.scheduled (exit_handler e)
  else ShutdownResult.exited 1

/-! ## Concurrent teardown (idempotency of `shutdown`)

Two `exit_handler` tasks interleave at await points on the single event loop.
The shared state is the bot connection and the set of open storage
connections.  Per the collaborators' semantics, `disconnect()` on a Telethon
client is a no-op when already disconnected, and `Tortoise.close_connections()`
closes whatever connections are open (a no-op when none are); `env.bot` itself
is never rebound, so `botPresent` is constant.  Each handler runs three atomic
segments: read the guard `env.bot and env.bot.is_connected()`, perform the
guarded disconnect, close all storage connections.  Dereferencing an absent
bot would raise `AttributeError`; the guard prevents it. -/

/-- Shared teardown-relevant system state. -/
structure SysState where
  botPresent : Bool
  botConnected : Bool
  openConnections : Nat
deriving DecidableEq, Repr

/-- One teardown task: program counter plus the guard value it read. -/
structure HandlerState where
  pc : Nat
  guard : Bool
deriving DecidableEq, Repr

/-- One atomic segment of a teardown task.  pc 0: evaluate the guard; pc 1:
disconnect if the guard was true (raising if the bot is absent, which the
guard rules out); pc 2: close all storage connections; pc 3: done. -/
def hstep (sys : SysState) (h : HandlerState) : Except PyErr (SysState × HandlerState) :=
  match h.pc with
  | 0 => Except.ok (sys, ⟨1, sys.botPresent && sys.botConnected⟩)
  | 1 =>
      if h.guard then
        if sys.botPresent then Except.ok ({ sys with botConnected := false }, ⟨2, h.guard⟩)
        else Except.error PyErr.attributeError
      else Except.ok (sys, ⟨2, h.guard⟩)
  | 2 => Except.ok ({ sys with openConnections := 0 }, ⟨3, h.guard⟩)
  | _ => Except.ok (sys, h)

/-- Run two teardown tasks under a schedule: `true` advances the first task by
one atomic segment, `false` the second.  An exception in either task aborts
the run with that exception. -/
def runConc : SysState → HandlerState → HandlerState → List Bool →
    Except PyErr (SysState × HandlerState × HandlerState)
  | sys, h1, h2, [] => Except.ok (sys, h1, h2)
  | sys, h1, h2, true :: rest =>
      match hstep sys h1 with
      | Except.error err => Except.error err
      | Except.ok p => runConc p.1 p.2 h2 rest
  | sys, h1, h2, false :: rest =>
      match hstep sys h2 with
      | Except.error err => Except.error err
      | Except.ok p => runConc p.1 h1 p.2 rest

/-! ## `asyncio.wait_for` (the bounded prerequisite wait)

Per the asyncio documentation, `wait_for(aw, timeout)` waits for `aw` at most
`timeout` units; if the timeout elapses first it **cancels** the task and
raises `asyncio.TimeoutError`.  A task is modelled by the work it needs and
the progress it has made; a cancelled task makes no further progress. -/

/-- An awaitable wrapped in a task: total work needed, progress made, and
whether the task has been cancelled. -/
structure TaskState where
  duration : Nat
  progress : Nat
  cancelled : Bool
deriving DecidableEq, Repr

/-- The task has finished its work. -/
def TaskState.completed (t : TaskState) : Bool := t.duration ≤ t.progress

/-- One unit of background execution: a cancelled or completed task makes no
progress. -/
def TaskState.step (t : TaskState) : TaskState :=
  if t.cancelled || t.completed then t else { t with progress := t.progress + 1 }

/-- `n` units of background execution. -/
def TaskState.run (t : TaskState) : Nat → TaskState
  | 0 => t
  | n + 1 => (t.step).run n

/-- `asyncio.wait_for(aw, timeout)`: run the task up to `timeout` units; if it
did not complete, cancel it and report the timeout (first component `true`). -/
def waitFor (timeout : Nat) (t : TaskState) : Bool × TaskState :=
  let t' := t.run timeout
  if t'.completed then (false, t')
  else (true, { t' with cancelled := true })

/-! ## Theorems -/

section Claims

/-- One filter call on a failure-signal message with the bot present: the
record passes (`True`), the counter is incremented, and the events follow the
multiple-of-5 / threshold-15 policy. -/
theorem filter_failure_step (s : APSCState) (msg : String)
    (h : strContains msg failureSub = true) :
    APSCFilter.filter (some ()) s msg =
      ⟨Except.ok true, { s with count := s.count + 1 },
        if s.count + 1 ≠ 0 ∧ (s.count + 1) % 5 = 0 then
          if 15 ≤ s.count + 1 then
            [FEvent.criticalLog (escalationCriticalMsg (s.count + 1)),
             FEvent.shutdownReq (some ⟨notificationText (s.count + 1) msg⟩)]
          else [FEvent.createTask ⟨notificationText (s.count + 1) msg⟩]
        else []⟩ := by
  unfold APSCFilter.filter
  rw [if_pos h]
  by_cases hc : s.count + 1 ≠ 0 ∧ (s.count + 1) % 5 = 0
  · rw [if_pos hc, if_pos hc]
    by_cases h15 : 15 ≤ s.count + 1
    · rw [if_pos h15, if_pos h15]
    · rw [if_neg h15, if_neg h15]
  · rw [if_neg hc, if_neg hc]

/-- C4: the access-log filter suppresses exactly the records at level ≤ INFO
whose formatted message lacks the `'Mozilla'` marker, and passes exactly the
records above INFO or containing the marker; it is a pure function of
`(level, formatted message)`. -/
theorem C4_access_filter (levelno : Int) (msg : String) :
    (AiohttpAccessFilter.filter levelno msg = false ↔
      levelno ≤ INFO ∧ strContains msg mozillaMarker = false)
  ∧ (AiohttpAccessFilter.filter levelno msg = true ↔
      INFO < levelno ∨ strContains msg mozillaMarker = true) := by
  by_cases h1 : levelno ≤ INFO <;>
    by_cases h2 : strContains msg mozillaMarker = false <;>
      simp [AiohttpAccessFilter.filter, h1, h2] <;> omega

/-- C10: with `env.bot` absent, a failure signal whose new count is a positive
multiple of 5 raises `AttributeError` inside the filter (no `None` guard before
`env.bot.send_message`), while the watchdog expiry path guards for `None` and
submits its ShutdownRequest with no prerequisite. -/
theorem C10_bot_absent (s : APSCState) (msg : String)
    (hm : strContains msg failureSub = true)
    (h5 : (s.count + 1) % 5 = 0) (h0 : s.count + 1 ≠ 0) :
    (APSCFilter.filter none s msg).result = Except.error PyErr.attributeError
  ∧ ∀ d : Int, exitBot none d =
      [FEvent.criticalLog (watchdogMsg d), FEvent.shutdownReq none] := by
  refine ⟨?_, fun d => rfl⟩
  simp [APSCFilter.filter, hm, h5, h0]

theorem C10_witness :
    (APSCFilter.filter none ⟨4, Watchdog.init⟩ failureSub).result =
      Except.error PyErr.attributeError :=
  (C10_bot_absent ⟨4, Watchdog.init⟩ failureSub (by decide) (by decide) (by decide)).1

/-- C2 as stated is false: the success substring in the source is
`' executed successfully'` with a leading space.  The message
`"executed successfully"` contains `"executed successfully"` and not the
failure substring, yet the filter passes it unchanged (no suppression, no
counter reset, no watchdog re-arm). -/
theorem C2_counterexample :
    strContains "executed successfully" "executed successfully" = true
  ∧ strContains "executed successfully" failureSub = false
  ∧ APSCFilter.filter (some ()) ⟨3, Watchdog.init⟩ "executed successfully" =
      ⟨Except.ok true, ⟨3, Watchdog.init⟩, []⟩ := by decide

/-- C2 (amended): for every record whose formatted message contains
`' executed successfully'` (leading space) and not the failure substring, the
filter suppresses the record, resets the counter to 0, re-arms the watchdog
with the "all clear" delay `15 * 60` (longer than the initial `5 * 60`), and
dispatches nothing. -/
theorem C2_success_resets (bot : Option Unit) (s : APSCState) (msg : String)
    (hs : strContains msg successSub = true)
    (hf : strContains msg failureSub = false) :
    APSCFilter.filter bot s msg =
      ⟨Except.ok false, ⟨0, Watchdog.fine s.watchdog watchdogFineDelay⟩, []⟩
  ∧ (Watchdog.fine s.watchdog watchdogFineDelay).timers[(Watchdog.fine s.watchdog
      watchdogFineDelay).current]? = some ⟨watchdogFineDelay, false, false⟩
  ∧ watchdogInitialDelay < watchdogFineDelay := by
  refine ⟨by simp [APSCFilter.filter, hs, hf], ?_, by decide⟩
  show (cancelAt s.watchdog.timers s.watchdog.current ++
    [⟨watchdogFineDelay, false, false⟩])[s.watchdog.timers.length]? = _
  have hlen : (cancelAt s.watchdog.timers s.watchdog.current).length =
      s.watchdog.timers.length := by
    unfold cancelAt; split <;> simp
  rw [← hlen]
  exact List.getElem?_concat_length _ _

theorem C2_witness :
    APSCFilter.filter (some ()) ⟨7, Watchdog.init⟩ " executed successfully" =
      ⟨Except.ok false, ⟨0, Watchdog.fine Watchdog.init watchdogFineDelay⟩, []⟩ :=
  (C2_success_resets (some ()) ⟨7, Watchdog.init⟩ " executed successfully"
    (by decide) (by decide)).1

/-- C3 as stated is false: the source matches
`'Running job \"run_monitor_task'`, not every message containing
`'Running job '`.  The message `Running job \"foo\"` contains
`'Running job '`, matches neither earlier rule, yet passes. -/
theorem C3_counterexample :
    strContains "Running job \"foo\"" "Running job " = true
  ∧ strContains "Running job \"foo\"" failureSub = false
  ∧ strContains "Running job \"foo\"" successSub = false
  ∧ APSCFilter.filter (some ()) APSCState.init "Running job \"foo\"" =
      ⟨Except.ok true, APSCState.init, []⟩ := by decide

/-- C3 (amended): a record matching neither earlier rule is suppressed with no
side effect iff its message contains `'Running job \"run_monitor_task'`;
otherwise it passes with no side effect. -/
theorem C3_running_job (bot : Option Unit) (s : APSCState) (msg : String)
    (h1 : strContains msg failureSub = false)
    (h2 : strContains msg successSub = false) :
    (strContains msg runningJobSub = true →
      APSCFilter.filter bot s msg = ⟨Except.ok false, s, []⟩)
  ∧ (strContains msg runningJobSub = false →
      APSCFilter.filter bot s msg = ⟨Except.ok true, s, []⟩) := by
  constructor <;> intro h3 <;> simp [APSCFilter.filter, h1, h2, h3]

theorem C3_witness :
    APSCFilter.filter (some ()) APSCState.init runningJobSub =
      ⟨Except.ok false, APSCState.init, []⟩ :=
  (C3_running_job (some ()) APSCState.init runningJobSub (by decide) (by decide)).1
    (by decide)

end Claims

section Claims2

/-- The trace of `exit_handler` in closed form: prerequisite wait, guarded
disconnect, unconditional storage close, error handling, final `exit(1)`. -/
theorem exit_handler_eq (e : ExitEnv) :
    exit_handler e =
      (match e.prereq with
        | none => []
        | some d =>
            if exitHandlerTimeout < d then [ExitEvent.awaitPrereq, ExitEvent.criticalTimeout]
            else [ExitEvent.awaitPrereq])
      ++ (if e.botPresent && e.botConnected then [ExitEvent.disconnect] else [])
      ++ [ExitEvent.closeConnections]
      ++ (if (e.botPresent && e.botConnected && e.disconnectRaises) || e.closeRaises then
            [ExitEvent.criticalError, ExitEvent.sigterm]
          else [])
      ++ [ExitEvent.exitCode 1] := rfl

/-- C5: the teardown runs in order with the specified failure handling: a
supplied prerequisite is awaited with the bounded timeout 10 and a timeout is
logged critical without aborting; the storage close runs unconditionally (in
particular when the disconnect step raised); any uncaught failure during
disconnect or close yields a critical log immediately followed by a raw
SIGTERM to the current process, before the final `exit(1)`. -/
theorem C5_exit_handler (e : ExitEnv) :
    (∀ d, e.prereq = some d → exitHandlerTimeout = 10 ∧
        (10 < d → ExitEvent.criticalTimeout ∈ exit_handler e))
  ∧ ExitEvent.closeConnections ∈ exit_handler e
  ∧ ((e.botPresent && e.botConnected) = true →
      ∃ l1 l2, exit_handler e = l1 ++ [ExitEvent.disconnect, ExitEvent.closeConnections] ++ l2)
  ∧ (((e.botPresent && e.botConnected && e.disconnectRaises) || e.closeRaises) = true →
      ∃ l, exit_handler e =
        l ++ [ExitEvent.criticalError, ExitEvent.sigterm, ExitEvent.exitCode 1])
  ∧ (exit_handler e).getLast? = some (ExitEvent.exitCode 1) := by
  obtain ⟨p, bp, bc, dr, cr⟩ := e
  refine ⟨?_, ?_, ?_, ?_, ?_⟩
  · rintro d rfl
    refine ⟨rfl, fun hd => ?_⟩
    simp [exit_handler_eq, hd, exitHandlerTimeout]
  · cases p <;> simp [exit_handler_eq]
  · intro hbb
    simp only at hbb
    cases p with
    | none =>
        exact ⟨[], (if ((bp && bc && dr) || cr) = true then
            [ExitEvent.criticalError, ExitEvent.sigterm] else []) ++ [ExitEvent.exitCode 1],
          by simp [exit_handler_eq, hbb]⟩
    | some d =>
        exact ⟨(if exitHandlerTimeout < d then [ExitEvent.awaitPrereq, ExitEvent.criticalTimeout]
            else [ExitEvent.awaitPrereq]),
          (if ((bp && bc && dr) || cr) = true then
            [ExitEvent.criticalError, ExitEvent.sigterm] else []) ++ [ExitEvent.exitCode 1],
          by simp [exit_handler_eq, hbb]⟩
  · intro hraised
    simp only at hraised
    cases p with
    | none =>
        exact ⟨(if (bp && bc) = true then [ExitEvent.disconnect] else [])
          ++ [ExitEvent.closeConnections], by simp [exit_handler_eq, hraised]⟩
    | some d =>
        exact ⟨(if exitHandlerTimeout < d then [ExitEvent.awaitPrereq, ExitEvent.criticalTimeout]
            else [ExitEvent.awaitPrereq])
          ++ (if (bp && bc) = true then [ExitEvent.disconnect] else [])
          ++ [ExitEvent.closeConnections], by simp [exit_handler_eq, hraised]⟩
  · rw [exit_handler_eq]
    exact List.getLast?_concat _
end Claims2

section Claims3

theorem C5_witness :
    ExitEvent.criticalTimeout ∈ exit_handler ⟨some 11, true, true, true, false⟩
  ∧ ExitEvent.closeConnections ∈ exit_handler ⟨some 11, true, true, true, false⟩
  ∧ ∃ l, exit_handler ⟨some 11, true, true, true, false⟩ =
      l ++ [ExitEvent.criticalError, ExitEvent.sigterm, ExitEvent.exitCode 1] :=
  ⟨((C5_exit_handler ⟨some 11, true, true, true, false⟩).1 11 rfl).2 (by decide),
   (C5_exit_handler ⟨some 11, true, true, true, false⟩).2.1,
   (C5_exit_handler ⟨some 11, true, true, true, false⟩).2.2.2.1 (by decide)⟩

/-- C6: every shutdown path exits with status 1 and no other code: with the
event loop not running, `shutdown` exits immediately with status 1 (no async
path); with the loop running, it schedules the teardown fire-and-forget and
returns, and the scheduled teardown ends in `exit(1)` on every branch. -/
theorem C6_shutdown_exit_one (loopRunning : Bool) (e : ExitEnv) :
    (loopRunning = false → shutdown loopRunning e = ShutdownResult.exited 1)
  ∧ (loopRunning = true → shutdown loopRunning e = ShutdownResult.scheduled (exit_handler e)
      ∧ (exit_handler e).getLast? = some (ExitEvent.exitCode 1))
  ∧ (∀ c, shutdown loopRunning e = ShutdownResult.exited c → c = 1)
  ∧ (∀ c tr, shutdown loopRunning e = ShutdownResult.scheduled tr →
      ExitEvent.exitCode c ∈ tr → c = 1) := by
  refine ⟨fun h => by simp [shutdown, h], fun h => ⟨by simp [shutdown, h], ?_⟩, ?_, ?_⟩
  · rw [exit_handler_eq]; exact List.getLast?_concat _
  · intro c hc
    cases loopRunning <;> simp [shutdown] at hc
    omega
  · intro c tr htr hmem
    cases loopRunning <;> simp [shutdown] at htr
    subst htr
    obtain ⟨p, bp, bc, dr, cr⟩ := e
    rw [exit_handler_eq] at hmem
    simp only [List.mem_append, List.mem_singleton, List.mem_cons] at hmem
    rcases hmem with ((((h | h) | h) | h) | h)
    · cases p with
      | none => simp at h
      | some d =>
          by_cases hd : exitHandlerTimeout < d <;> simp [hd] at h
    · split at h <;> simp at h
    · simp at h
    · split at h <;> simp at h
    · simp at h
      omega

theorem C6_witness :
    shutdown false ⟨none, false, false, false, false⟩ = ShutdownResult.exited 1 :=
  (C6_shutdown_exit_one false ⟨none, false, false, false, false⟩).1 rfl

/-- A cancelled task makes no further progress, ever. -/
theorem TaskState.run_cancelled (t : TaskState) (hc : t.cancelled = true) :
    ∀ k, t.run k = t := by
  intro k
  induction k with
  | zero => rfl
  | succ n ih =>
      show (t.step).run n = t
      rw [show t.step = t from by simp [TaskState.step, hc]]
      exact ih

set_option maxRecDepth 8000 in
/-- C9 as stated is false: `asyncio.wait_for` cancels the awaitable on
timeout.  A prerequisite needing 12 units, waited on with the bound 10, times
out, comes back cancelled, and even 100 further background units leave its
progress frozen at 10, never completing — it does not continue running. -/
theorem C9_counterexample :
    (waitFor exitHandlerTimeout ⟨12, 0, false⟩).1 = true
  ∧ (waitFor exitHandlerTimeout ⟨12, 0, false⟩).2.cancelled = true
  ∧ ((waitFor exitHandlerTimeout ⟨12, 0, false⟩).2.run 100).progress = 10
  ∧ ((waitFor exitHandlerTimeout ⟨12, 0, false⟩).2.run 100).completed = false := by decide

/-- C9 (amended): when the bounded wait on the shutdown prerequisite times
out, the prerequisite IS cancelled by `asyncio.wait_for`, and the cancelled
operation makes no further progress in the background. -/
theorem C9_timeout_cancels (t : TaskState)
    (h : (waitFor exitHandlerTimeout t).1 = true) :
    (waitFor exitHandlerTimeout t).2.cancelled = true
  ∧ ∀ k, ((waitFor exitHandlerTimeout t).2.run k) = (waitFor exitHandlerTimeout t).2 := by
  by_cases hc : (t.run exitHandlerTimeout).completed = true
  · simp [waitFor, hc] at h
  · have h2 : (waitFor exitHandlerTimeout t).2 =
        { t.run exitHandlerTimeout with cancelled := true } := by
      simp [waitFor, hc]
    rw [h2]
    exact ⟨rfl, TaskState.run_cancelled _ rfl⟩

theorem C9_witness :
    (waitFor exitHandlerTimeout ⟨12, 0, false⟩).2.cancelled = true
  ∧ ((waitFor exitHandlerTimeout ⟨12, 0, false⟩).2.run 5) =
      (waitFor exitHandlerTimeout ⟨12, 0, false⟩).2 :=
  ⟨(C9_timeout_cancels ⟨12, 0, false⟩ (by decide)).1,
   (C9_timeout_cancels ⟨12, 0, false⟩ (by decide)).2 5⟩

end Claims3

section Claims4

/-- One atomic teardown segment never raises (the guard protects the
dereference), preserves bot presence, never opens connections, and reaches
pc 3 only with the storage closed. -/
theorem hstep_ok (sys : SysState) (h : HandlerState)
    (hg : h.guard = true → sys.botPresent = true)
    (hc : h.pc = 3 → sys.openConnections = 0) :
    ∃ sh : SysState × HandlerState, hstep sys h = Except.ok sh
      ∧ sh.1.botPresent = sys.botPresent
      ∧ (sh.1.openConnections = sys.openConnections ∨ sh.1.openConnections = 0)
      ∧ (sh.2.guard = true → sh.1.botPresent = true)
      ∧ (sh.2.pc = 3 → sh.1.openConnections = 0) := by
  obtain ⟨pc, g⟩ := h
  match pc with
  | 0 =>
      refine ⟨(sys, ⟨1, sys.botPresent && sys.botConnected⟩), rfl, rfl, Or.inl rfl, ?_, by simp⟩
      intro hgg
      simp only [Bool.and_eq_true] at hgg
      exact hgg.1
  | 1 =>
      by_cases hgv : g = true
      · have hbp : sys.botPresent = true := hg hgv
        exact ⟨({ sys with botConnected := false }, ⟨2, g⟩),
          by simp [hstep, hgv, hbp], rfl, Or.inl rfl, fun _ => hbp, by simp⟩
      · simp only [Bool.not_eq_true] at hgv
        exact ⟨(sys, ⟨2, g⟩), by simp [hstep, hgv], rfl, Or.inl rfl,
          fun hgg => absurd hgg (by simp [hgv]), by simp⟩
  | 2 =>
      exact ⟨({ sys with openConnections := 0 }, ⟨3, g⟩), rfl, rfl, Or.inr rfl,
        fun hgg => hg hgg, fun _ => rfl⟩
  | n + 3 =>
      exact ⟨(sys, ⟨n + 3, g⟩), rfl, rfl, Or.inl rfl, hg, hc⟩

/-- Any interleaving of the two teardown tasks completes without raising, and
a task that finished left the storage closed. -/
theorem runConc_ok (sched : List Bool) :
    ∀ (sys : SysState) (h1 h2 : HandlerState),
      (h1.guard = true → sys.botPresent = true) →
      (h2.guard = true → sys.botPresent = true) →
      (h1.pc = 3 → sys.openConnections = 0) →
      (h2.pc = 3 → sys.openConnections = 0) →
      ∃ sys' h1' h2', runConc sys h1 h2 sched = Except.ok (sys', h1', h2')
        ∧ (h1'.pc = 3 → sys'.openConnections = 0)
        ∧ (h2'.pc = 3 → sys'.openConnections = 0) := by
  induction sched with
  | nil => exact fun sys h1 h2 _ _ c1 c2 => ⟨sys, h1, h2, rfl, c1, c2⟩
  | cons b rest ih =>
      intro sys h1 h2 g1 g2 c1 c2
      cases b
      · obtain ⟨⟨sys', h2'⟩, heq, hbp, hconn, hg', hc'⟩ := hstep_ok sys h2 g2 c2
        dsimp only at hbp hconn hg' hc'
        obtain ⟨sysf, h1f, h2f, heqf, hc1f, hc2f⟩ :=
          ih sys' h1 h2' (fun hh => by rw [hbp]; exact g1 hh) hg'
            (fun hh => by
              rcases hconn with he | he
              · rw [he]; exact c1 hh
              · exact he)
            hc'
        refine ⟨sysf, h1f, h2f, ?_, hc1f, hc2f⟩
        simp [runConc, heq, heqf]
      · obtain ⟨⟨sys', h1'⟩, heq, hbp, hconn, hg', hc'⟩ := hstep_ok sys h1 g1 c1
        dsimp only at hbp hconn hg' hc'
        obtain ⟨sysf, h1f, h2f, heqf, hc1f, hc2f⟩ :=
          ih sys' h1' h2 hg' (fun hh => by rw [hbp]; exact g2 hh)
            hc'
            (fun hh => by
              rcases hconn with he | he
              · rw [he]; exact c2 hh
              · exact he)
        refine ⟨sysf, h1f, h2f, ?_, hc1f, hc2f⟩
        simp [runConc, heq, heqf]

/-- C8: shutdown teardown is idempotent under concurrency: for any
interleaving of two teardown tasks, from any initial resource state
(including already torn down), both tasks complete without raising, and once
either task has finished, all storage connections are closed. -/
theorem C8_concurrent_teardown (sched : List Bool) (present connected : Bool)
    (conns : Nat) :
    ∃ sys' h1' h2',
      runConc ⟨present, connected, conns⟩ ⟨0, false⟩ ⟨0, false⟩ sched =
        Except.ok (sys', h1', h2')
      ∧ ((h1'.pc = 3 ∨ h2'.pc = 3) → sys'.openConnections = 0) := by
  obtain ⟨sys', h1', h2', heq, hc1, hc2⟩ :=
    runConc_ok sched ⟨present, connected, conns⟩ ⟨0, false⟩ ⟨0, false⟩
      (by simp) (by simp) (by simp) (by simp)
  exact ⟨sys', h1', h2', heq, fun h => h.elim hc1 hc2⟩

theorem C8_witness :
    ∃ sys' h1' h2',
      runConc ⟨true, true, 4⟩ ⟨0, false⟩ ⟨0, false⟩ [true, false, true, false, true, false] =
        Except.ok (sys', h1', h2')
      ∧ ((h1'.pc = 3 ∨ h2'.pc = 3) → sys'.openConnections = 0) :=
  C8_concurrent_teardown [true, false, true, false, true, false] true true 4

end Claims4

section Claims5

/-- An index with a value is in bounds. -/
theorem getElem?_lt {α : Type} {l : List α} {i : Nat} {a : α} (h : l[i]? = some a) :
    i < l.length := by
  by_contra hh
  rw [List.getElem?_eq_none (Nat.le_of_not_lt hh)] at h
  cases h

theorem cancelAt_length (ts : List Timer) (i : Nat) : (cancelAt ts i).length = ts.length := by
  unfold cancelAt; split <;> simp

theorem cancelAt_self {ts : List Timer} {i : Nat} {t : Timer} (h : ts[i]? = some t) :
    (cancelAt ts i)[i]? = some { t with cancelled := true } := by
  unfold cancelAt
  rw [h]
  simp [List.getElem?_set_self, getElem?_lt h]

theorem cancelAt_ne {ts : List Timer} {i j : Nat} (h : i ≠ j) :
    (cancelAt ts i)[j]? = ts[j]? := by
  unfold cancelAt
  cases hts : ts[i]? with
  | none => rfl
  | some t => rw [List.getElem?_set_ne h]

/-- `fine` always leaves the freshly armed timer as the current handle. -/
theorem fine_current_new (s : WatchdogState) (d : Int) :
    (Watchdog.fine s d).timers[(Watchdog.fine s d).current]? = some ⟨d, false, false⟩ := by
  show (cancelAt s.timers s.current ++ [⟨d, false, false⟩])[s.timers.length]? = _
  rw [← cancelAt_length s.timers s.current]
  exact List.getElem?_concat_length _ _

/-- Watchdog invariant: the current handle index is in bounds and every
non-current handle is cancelled (hence at most one pending expiry callback). -/
def WInv (s : WatchdogState) : Prop :=
  s.current < s.timers.length ∧
  ∀ i t, s.timers[i]? = some t → i ≠ s.current → t.cancelled = true

theorem winv_init : WInv Watchdog.init := by
  refine ⟨by simp [Watchdog.init], ?_⟩
  intro i t h hi
  match i with
  | 0 => exact absurd rfl hi
  | n + 1 => simp [Watchdog.init] at h

theorem winv_fine (s : WatchdogState) (hs : WInv s) (d : Int) : WInv (Watchdog.fine s d) := by
  obtain ⟨hlt, hinv⟩ := hs
  refine ⟨by simp [Watchdog.fine, cancelAt_length], ?_⟩
  intro i t h hi
  simp only [Watchdog.fine] at h hi
  by_cases hlen : i < s.timers.length
  · rw [List.getElem?_append_left (by rwa [cancelAt_length])] at h
    by_cases hcur : i = s.current
    · have hlen' : s.current < s.timers.length := hcur ▸ hlen
      have ht0 : s.timers[s.current]? = some (s.timers.get ⟨s.current, hlen'⟩) := by
        rw [List.getElem?_eq_getElem hlen']
        rfl
      rw [hcur] at h
      rw [cancelAt_self ht0] at h
      cases h
      rfl
    · rw [cancelAt_ne (fun he => hcur he.symm)] at h
      exact hinv i t h hcur
  · exfalso
    have hi2 : i < s.timers.length + 1 := by
      have := getElem?_lt h
      simpa [cancelAt_length] using this
    omega

theorem winv_tryFire (s : WatchdogState) (hs : WInv s) (i : Nat) (b : Option Unit) :
    WInv (Watchdog.tryFire s i b).1 := by
  obtain ⟨hlt, hinv⟩ := hs
  rcases hh : s.timers[i]? with _ | t
  · simp only [Watchdog.tryFire, hh]
    exact ⟨hlt, hinv⟩
  · by_cases hcf : (t.cancelled || t.fired) = true
    · simp only [Watchdog.tryFire, hh, if_pos hcf]
      exact ⟨hlt, hinv⟩
    · simp only [Watchdog.tryFire, hh, if_neg hcf]
      refine ⟨by simpa using hlt, ?_⟩
      intro j u hj hne
      dsimp only at hj hne
      by_cases hji : j = i
      · subst hji
        rw [List.getElem?_set_self (getElem?_lt hh)] at hj
        cases hj
        exact hinv j t hh hne
      · rw [List.getElem?_set_ne (fun he => hji he.symm)] at hj
        exact hinv j u hj hne

theorem winv_run (ops : List WOp) : ∀ s, WInv s → WInv (Watchdog.run s ops).1 := by
  induction ops with
  | nil => exact fun s hs => hs
  | cons op rest ih =>
      intro s hs
      cases op with
      | fine d => exact ih _ (winv_fine s hs d)
      | tryFire i b => simpa [Watchdog.run] using ih _ (winv_tryFire s hs i b)

/-- The watchdog state reached from boot by a sequence of event-loop steps. -/
def Watchdog.after (ops : List WOp) : WatchdogState := (Watchdog.run Watchdog.init ops).1

theorem winv_after (ops : List WOp) : WInv (Watchdog.after ops) :=
  winv_run ops Watchdog.init winv_init

/-- Poking a handle twice produces nothing the second time: a handle fires at
most once. -/
theorem tryFire_twice (s : WatchdogState) (i : Nat) (b b' : Option Unit) :
    (Watchdog.tryFire (Watchdog.tryFire s i b).1 i b').2 = [] := by
  rcases hh : s.timers[i]? with _ | t
  · simp only [Watchdog.tryFire, hh]
  · by_cases hcf : (t.cancelled || t.fired) = true
    · simp only [Watchdog.tryFire, hh, if_pos hcf]
    · simp only [Watchdog.tryFire, hh, if_neg hcf]
      have hset : (s.timers.set i { t with fired := true })[i]? =
          some { t with fired := true } := List.getElem?_set_self (getElem?_lt hh)
      simp [Watchdog.tryFire, hset]

/-- A cancelled handle never fires. -/
theorem tryFire_cancelled (s : WatchdogState) (i : Nat) (b : Option Unit) (t : Timer)
    (h : s.timers[i]? = some t) (hc : t.cancelled = true) :
    (Watchdog.tryFire s i b).2 = [] := by
  simp [Watchdog.tryFire, h, hc]

/-- After a reset, poking the replaced (old current) handle fires nothing: no
orphaned callback survives a reset. -/
theorem fine_no_orphan (s : WatchdogState) (hs : WInv s) (d : Int) (b : Option Unit) :
    (Watchdog.tryFire (Watchdog.fine s d) s.current b).2 = [] := by
  obtain ⟨hlt, _⟩ := hs
  have ht0 : s.timers[s.current]? = some s.timers[s.current] := List.getElem?_eq_getElem hlt
  have hcc : (Watchdog.fine s d).timers[s.current]? =
      some { s.timers[s.current] with cancelled := true } := by
    show (cancelAt s.timers s.current ++ _)[s.current]? = _
    rw [List.getElem?_append_left (by rw [cancelAt_length]; exact hlt)]
    exact cancelAt_self ht0
  exact tryFire_cancelled _ _ _ _ hcc rfl

/-- C7: in every reachable watchdog state, at most one handle is pending; a
reset cancels exactly the current handle, leaves the others untouched, and
arms exactly one fresh replacement which becomes current, and the replaced
handle can no longer fire; a handle fires at most once; and an expiry of a
pending handle emits exactly one critical log followed by exactly one
ShutdownRequest whose prerequisite is the composed operator notification when
the bot exists and absent otherwise. -/
theorem C7_watchdog (ops : List WOp) :
    (∀ (i j : Nat) (ti tj : Timer), (Watchdog.after ops).timers[i]? = some ti →
        (Watchdog.after ops).timers[j]? = some tj →
        ti.cancelled = false → ti.fired = false →
        tj.cancelled = false → tj.fired = false → i = j)
  ∧ (∀ d : Int,
        (Watchdog.fine (Watchdog.after ops) d).timers.length
          = (Watchdog.after ops).timers.length + 1
      ∧ (∀ t, (Watchdog.after ops).timers[(Watchdog.after ops).current]? = some t →
          (Watchdog.fine (Watchdog.after ops) d).timers[(Watchdog.after ops).current]?
            = some { t with cancelled := true })
      ∧ (∀ j, j ≠ (Watchdog.after ops).current → j < (Watchdog.after ops).timers.length →
          (Watchdog.fine (Watchdog.after ops) d).timers[j]?
            = (Watchdog.after ops).timers[j]?)
      ∧ (Watchdog.fine (Watchdog.after ops) d).timers[(Watchdog.fine
          (Watchdog.after ops) d).current]? = some ⟨d, false, false⟩
      ∧ ∀ b, (Watchdog.tryFire (Watchdog.fine (Watchdog.after ops) d)
          (Watchdog.after ops).current b).2 = [])
  ∧ (∀ (i : Nat) (b b' : Option Unit),
        (Watchdog.tryFire (Watchdog.tryFire (Watchdog.after ops) i b).1 i b').2 = [])
  ∧ (∀ (i : Nat) (t : Timer) (b : Option Unit), (Watchdog.after ops).timers[i]? = some t →
        t.cancelled = false → t.fired = false →
        (Watchdog.tryFire (Watchdog.after ops) i b).2
          = [FEvent.criticalLog (watchdogMsg t.delay),
             FEvent.shutdownReq
               (Option.map (fun _ => ⟨"WATCHDOG: " ++ watchdogMsg t.delay⟩) b)]) := by
  obtain ⟨hlt, hinv⟩ := winv_after ops
  refine ⟨?_, ?_, ?_, ?_⟩
  · intro i j ti tj hi hj hic _ hjc _
    have hi' : i = (Watchdog.after ops).current := by
      by_contra hne
      rw [hinv i ti hi hne] at hic
      cases hic
    have hj' : j = (Watchdog.after ops).current := by
      by_contra hne
      rw [hinv j tj hj hne] at hjc
      cases hjc
    rw [hi', hj']
  · intro d
    refine ⟨by simp [Watchdog.fine, cancelAt_length], ?_, ?_, fine_current_new _ _, ?_⟩
    · intro t ht
      show (cancelAt (Watchdog.after ops).timers (Watchdog.after ops).current ++ _)[
        (Watchdog.after ops).current]? = _
      rw [List.getElem?_append_left (by rw [cancelAt_length]; exact hlt)]
      exact cancelAt_self ht
    · intro j hne hjlt
      show (cancelAt (Watchdog.after ops).timers (Watchdog.after ops).current ++ _)[j]? = _
      rw [List.getElem?_append_left (by rwa [cancelAt_length])]
      exact cancelAt_ne (fun he => hne he.symm)
    · intro b
      exact fine_no_orphan _ ⟨hlt, hinv⟩ d b
  · intro i b b'
    exact tryFire_twice _ i b b'
  · intro i t b ht hc hf
    have : (Watchdog.tryFire (Watchdog.after ops) i b).2 = exitBot b t.delay := by
      simp [Watchdog.tryFire, ht, hc, hf]
    rw [this]
    cases b <;> rfl

theorem C7_witness :
    (Watchdog.tryFire (Watchdog.after []) 0 (some ())).2
      = [FEvent.criticalLog (watchdogMsg 300),
         FEvent.shutdownReq
           (Option.map (fun _ => ⟨"WATCHDOG: " ++ watchdogMsg 300⟩) (some ()))] :=
  (C7_watchdog []).2.2.2 0 ⟨300, false, false⟩ (some ()) (by decide) rfl rfl

end Claims5

section Claims6

/-- Filter state after `n` failure signals from the initial state. -/
def failState (msg : String) (n : Nat) : APSCState := (iterFailures msg n).1

/-- Side effects of the `n`-th failure signal (1-based) in such a run. -/
def stepEvents (msg : String) (n : Nat) : List FEvent :=
  (APSCFilter.filter (some ()) (failState msg (n - 1)) msg).events

theorem failState_count (msg : String) (h : strContains msg failureSub = true) :
    ∀ n, (failState msg n).count = n := by
  intro n
  induction n with
  | zero => rfl
  | succ k ih =>
      show (APSCFilter.filter (some ()) (failState msg k) msg).state.count = _
      rw [filter_failure_step _ _ h]
      dsimp only
      rw [ih]
      push_cast
      ring

/-- On the `n`-th failure signal a notification goes out iff `n` is a
(positive) multiple of 5, and a ShutdownRequest goes out iff additionally
`n ≥ 15`. -/
theorem stepEvents_characterization (msg : String)
    (h : strContains msg failureSub = true) (n : Nat) (hn : 1 ≤ n) :
    ((stepEvents msg n).any isNotify = true ↔ n % 5 = 0)
  ∧ ((stepEvents msg n).any isShutdownReq = true ↔ (n % 5 = 0 ∧ 15 ≤ n)) := by
  have hc : (failState msg (n - 1)).count + 1 = (n : Int) := by
    rw [failState_count msg h]
    omega
  unfold stepEvents
  rw [filter_failure_step _ _ h]
  dsimp only
  rw [hc]
  by_cases h5 : (n : Int) ≠ 0 ∧ (n : Int) % 5 = 0
  · rw [if_pos h5]
    obtain ⟨h50, h51⟩ := h5
    by_cases h15 : 15 ≤ (n : Int)
    · rw [if_pos h15]
      constructor <;> simp [isNotify, isShutdownReq] <;> omega
    · rw [if_neg h15]
      constructor <;> simp [isNotify, isShutdownReq] <;> omega
  · rw [if_neg h5]
    have h5' : ¬ n % 5 = 0 := fun hh => h5 ⟨by omega, by omega⟩
    simp [h5']

/-- The counter moves only in the three source-visible ways: `+1` on a
failure signal, to `0` on a success signal, otherwise unchanged. -/
theorem filter_count_cases (bot : Option Unit) (s : APSCState) (m : String) :
    (strContains m failureSub = true ∧
      (APSCFilter.filter bot s m).state.count = s.count + 1)
  ∨ (strContains m failureSub = false ∧ strContains m successSub = true ∧
      (APSCFilter.filter bot s m).state.count = 0)
  ∨ ((APSCFilter.filter bot s m).state.count = s.count) := by
  unfold APSCFilter.filter
  by_cases hf : strContains m failureSub = true
  · left
    refine ⟨hf, ?_⟩
    rw [if_pos hf]
    by_cases hc : s.count + 1 ≠ 0 ∧ (s.count + 1) % 5 = 0
    · rw [if_pos hc]
      cases bot with
      | none => rfl
      | some u =>
          by_cases h15 : 15 ≤ s.count + 1
          · rw [if_pos h15]
          · rw [if_neg h15]
    · rw [if_neg hc]
  · right
    rw [if_neg hf]
    by_cases hs : strContains m successSub = true
    · left
      rw [if_pos hs]
      exact ⟨by simpa using hf, hs, rfl⟩
    · right
      rw [if_neg hs]
      by_cases hr : strContains m runningJobSub = true
      · rw [if_pos hr]
      · rw [if_neg hr]

/-- C1: over a run of `N` consecutive failure signals from counter 0 with no
intervening success, the counter equals `N` after the `N`-th signal; the
`n`-th signal dispatches an operator notification iff `n` is a (positive)
multiple of 5; a shutdown is initiated during the run iff `N ≥ 15` (the first
initiation happening at the 15th signal); and in general the counter stays
non-negative and moves only by `+1` on failure signals or to `0` on success
signals. -/
theorem C1_escalation (msg : String) (h : strContains msg failureSub = true) (N : Nat) :
    (failState msg N).count = N
  ∧ (∀ n : Nat, 1 ≤ n → n ≤ N →
      ((stepEvents msg n).any isNotify = true ↔ n % 5 = 0))
  ∧ ((∃ n : Nat, 1 ≤ n ∧ n ≤ N ∧ (stepEvents msg n).any isShutdownReq = true) ↔ 15 ≤ N)
  ∧ (∀ (bot : Option Unit) (s : APSCState) (m : String), 0 ≤ s.count →
      0 ≤ (APSCFilter.filter bot s m).state.count)
  ∧ (∀ (bot : Option Unit) (s : APSCState) (m : String),
      (APSCFilter.filter bot s m).state.count ≠ s.count →
        (strContains m failureSub = true
          ∧ (APSCFilter.filter bot s m).state.count = s.count + 1)
        ∨ (strContains m failureSub = false ∧ strContains m successSub = true
          ∧ (APSCFilter.filter bot s m).state.count = 0)) := by
  refine ⟨failState_count msg h N, ?_, ?_, ?_, ?_⟩
  · intro n hn _
    exact (stepEvents_characterization msg h n hn).1
  · constructor
    · rintro ⟨n, hn1, hnN, hsd⟩
      have := (stepEvents_characterization msg h n hn1).2.mp hsd
      omega
    · intro hN
      refine ⟨15, by omega, by omega, ?_⟩
      exact (stepEvents_characterization msg h 15 (by omega)).2.mpr ⟨by omega, by omega⟩
  · intro bot s m h0
    rcases filter_count_cases bot s m with ⟨_, he⟩ | ⟨_, _, he⟩ | he <;> omega
  · intro bot s m hne
    rcases filter_count_cases bot s m with ⟨hf, he⟩ | ⟨hf, hs, he⟩ | he
    · exact Or.inl ⟨hf, he⟩
    · exact Or.inr ⟨hf, hs, he⟩
    · exact absurd he hne

theorem C1_witness :
    (failState failureSub 15).count = 15 :=
  (C1_escalation failureSub (by decide) 15).1

end Claims6
